import Mathlib

/-!
Verification development for the Popup widget (a browser modal component).

The source is a single class Popup with:
  - five DOM role bindings (opener, container, wrapper, content, closeButton),
  - four mutually exclusive animation state classes on the container
    (hidden, opening, opened, closing),
  - an open/close state machine driven by click and keyup listeners and
    setTimeout callbacks,
  - a drag-to-dismiss gesture on the wrapper with a clamped percentage.

The embedding below translates the relevant methods of the source class into
pure functions over an explicit controller state.  DOM classList operations
are modelled with set semantics (a Finset of the four tracked state classes);
setTimeout callbacks are modelled as separate transition functions together
with pending flags; event listener registration is modelled by counting how
many handler instances are attached; numbers from the gesture math are
modelled as rationals.
-/

namespace Popup

/-- AnimationState classes carried by the container node.  The four constructors
stand for the four (by default distinct) class name strings
popup--hidden, popup--opening, popup--opened, popup--closing. -/
inductive StateClass
  | hidden
  | opening
  | opened
  | closing
deriving DecidableEq, Repr

instance : Fintype StateClass :=
  ⟨⟨{StateClass.hidden, StateClass.opening, StateClass.opened, StateClass.closing}, by decide⟩,
   by intro x; cases x <;> decide⟩

/-- DOMTokenList.replace a b semantics on a class set: when a is present it is
removed and b added; when a is absent nothing changes (and false is returned,
which the source ignores). -/
def classListReplace (a b : StateClass) (cl : Finset StateClass) : Finset StateClass :=
  if a ∈ cl then insert b (cl.erase a) else cl

/-- Controller state of one Popup instance: the container state-class set, the
re-entrancy flag, the one-time-registration flags, the has-popup marker class
on the html node, and counts of attached listener instances.  The counts model
how many times addEventListener ran for each listener kind: the opener click
listener is registered with the once option, the container click listener and
the document keyup listener persist.  The pending flags model the setTimeout
callbacks scheduled by openPopup and closePopup. -/
structure Ctrl where
  classes : Finset StateClass := {StateClass.hidden}
  isAnimating : Bool := false
  useEscapeToClose : Bool := true
  isCloseEventAdded : Bool := false
  isMoveEventsAdded : Bool := false
  hasPopup : Bool := false
  openListenerCount : Nat := 1
  closeClickListenerCount : Nat := 0
  escListenerCount : Nat := 0
  grabListenerCount : Nat := 0
  pendingOpenTimeout : Bool := false
  pendingCloseTimeout : Bool := false
deriving DecidableEq

/-- Controller state right after a successful construction: the constructor
adds the hidden class to the container and registers one once-click open
listener on the opener. -/
def initCtrl : Ctrl := {}

/-- Method openPopup, up to and excluding its setTimeout callback body: bail
out while animating, else set isAnimating, add the has-popup class to html,
replace hidden by opening on the container, write the CSS custom properties
(transform origin, scale-start, opening timing and easing; not tracked here),
and schedule the opening-completion callback. -/
def openPopup (s : Ctrl) : Ctrl :=
  if s.isAnimating then s
  else
    { s with
      isAnimating := true
      hasPopup := true
      classes := classListReplace StateClass.hidden StateClass.opening s.classes
      pendingOpenTimeout := true }

/-- Method addCloseListener: attaches the container click handler, and, when
useEscapeToClose holds, the document keyup handler.  Faithful to the source,
it does NOT set isCloseEventAdded. -/
def addCloseListenerFn (s : Ctrl) : Ctrl :=
  { s with
    closeClickListenerCount := s.closeClickListenerCount + 1
    escListenerCount :=
      if s.useEscapeToClose then s.escListenerCount + 1 else s.escListenerCount }

/-- Listener-registration bookkeeping of method addGrabListener: it sets
isMoveEventsAdded and attaches the mousedown, mouseup and mousemove handlers
(one run counted here; the gesture handlers themselves are modelled below). -/
def addGrabListenerFn (s : Ctrl) : Ctrl :=
  { s with isMoveEventsAdded := true, grabListenerCount := s.grabListenerCount + 1 }

/-- Body of the setTimeout callback scheduled by openPopup: replace opening by
opened, run addCloseListener unless isCloseEventAdded, run addGrabListener
unless isMoveEventsAdded, clear isAnimating. -/
def openTimeout (s : Ctrl) : Ctrl :=
  let s1 := { s with classes := classListReplace StateClass.opening StateClass.opened s.classes }
  let s2 := if s1.isCloseEventAdded then s1 else addCloseListenerFn s1
  let s3 := if s2.isMoveEventsAdded then s2 else addGrabListenerFn s2
  { s3 with isAnimating := false, pendingOpenTimeout := false }

/-- Method closePopup, up to and excluding its setTimeout callback body: bail
out while animating, else set isAnimating, replace opened by closing on the
container, write the closing CSS custom properties (not tracked), and schedule
the closing-completion callback. -/
def closePopup (s : Ctrl) : Ctrl :=
  if s.isAnimating then s
  else
    { s with
      isAnimating := true
      classes := classListReplace StateClass.opened StateClass.closing s.classes
      pendingCloseTimeout := true }

/-- Body of the setTimeout callback scheduled by closePopup: replace closing by
hidden, run addOpenListener (one more once-click listener on the opener),
remove the has-popup class from html, clear isAnimating. -/
def closeTimeout (s : Ctrl) : Ctrl :=
  { s with
    classes := classListReplace StateClass.closing StateClass.hidden s.classes
    openListenerCount := s.openListenerCount + 1
    hasPopup := false
    isAnimating := false
    pendingCloseTimeout := false }

/-- Possible targets of a click event dispatched on the container, classified
by what event.target.isSameNode comparisons can distinguish. -/
inductive ClickTarget
  | contentNode
  | containerNode
  | insideContent
  | other
deriving DecidableEq

/-- One instance of the container click handler installed by addCloseListener:
return unless the event target is the very content node, else closePopup. -/
def containerClickHandler (t : ClickTarget) (s : Ctrl) : Ctrl :=
  if t = ClickTarget.contentNode then closePopup s else s

/-- Dispatch of one container click event: every attached handler instance
runs once. -/
def containerClickDispatch (t : ClickTarget) (s : Ctrl) : Ctrl :=
  (containerClickHandler t)^[s.closeClickListenerCount] s

/-- One instance of the document keyup handler installed by addCloseListener:
closePopup when event.code is Escape. -/
def keyupHandler (code : String) (s : Ctrl) : Ctrl :=
  if code = "Escape" then closePopup s else s

/-- Dispatch of one document keyup event: every attached handler instance runs
once (the handler is only ever attached when useEscapeToClose holds). -/
def keyupDispatch (code : String) (s : Ctrl) : Ctrl :=
  (keyupHandler code)^[s.escListenerCount] s

/-- Controller state after the first opener click and the opening-completion
timeout: the popup is Opened and both lazy listener sets have been attached
once. -/
def openedCtrl : Ctrl := openTimeout (openPopup initCtrl)

/-- Controller state after a full open and close cycle: back to Hidden, with
the close and grab listeners still attached from the first cycle. -/
def hiddenAfterCycle : Ctrl := closeTimeout (closePopup openedCtrl)

/-!
Drag gesture (method addGrabListener): closure-local variables and the three
document-level handlers.  Pixel coordinates are modelled as rationals.
-/

/-- DragGesture closure state of addGrabListener: let locked, isReturning,
offset, initialPosition, percentage.  The percentage is initialised to 1 once,
when addGrabListener runs. -/
structure Gesture where
  locked : Bool := false
  isReturning : Bool := false
  offsetX : ℚ := 0
  offsetY : ℚ := 0
  initialX : ℚ := 0
  initialY : ℚ := 0
  percentage : ℚ := 1
deriving DecidableEq

/-- CSS classes and custom properties written by the gesture handlers on the
wrapper and the container (an Option none models an unset or nulled custom
property). -/
structure DragView where
  wrapperMoving : Bool := false
  wrapperMovingBack : Bool := false
  containerMoving : Bool := false
  movingTop : Option ℚ := none
  movingLeft : Option ℚ := none
  movingScale : Option ℚ := none
  movingOpacity : Option ℚ := none
  movingTransition : Option String := none
  movingBackTransition : Option String := none
  movingBackLeft : Option ℚ := none
  movingBackTop : Option ℚ := none
  pendingReturnDelay : Option ℕ := none
deriving DecidableEq

/-- Combined state the gesture handlers act on: the closure variables, the
written view properties, and the controller (mouseup may call closePopup). -/
structure DragState where
  g : Gesture := {}
  view : DragView := {}
  ctrl : Ctrl := openedCtrl
deriving DecidableEq

/-- Handler for mousedown on a grab trigger node: bail out when locked or
returning; else capture the wrapper bounding box position (rectX, rectY),
record the rounded pointer offset within the wrapper and the initial
position, add the popup--moving class to the container, set the moving
transform origin (not tracked) and null the moving transition, and lock. -/
def mousedown (clientX clientY rectX rectY : ℚ) (s : DragState) : DragState :=
  if s.g.locked || s.g.isReturning then s
  else
    { s with
      g := { s.g with
        offsetX := ((round (clientX - rectX) : ℤ) : ℚ)
        offsetY := ((round (clientY - rectY) : ℤ) : ℚ)
        initialX := rectX
        initialY := rectY
        locked := true }
      view := { s.view with
        containerMoving := true
        movingTransition := none } }

/-- Percentage computation of the mousemove handler, verbatim from the source:
percentage = 1 - (initialY - top) / (4.5 * initialY), then clamped above at 1,
then below at 0.3. -/
def movePercentage (initialY top : ℚ) : ℚ :=
  let p := 1 - (initialY - top) / (9 / 2 * initialY)
  let q := if p > 1 then 1 else p
  if q < 3 / 10 then 3 / 10 else q

/-- Handler for mousemove on the document: bail out unless locked and not
returning; compute the prospective wrapper top from the pointer position and
the recorded offset; ignore moves within the 10px dead-zone; else recompute
the percentage, add the wrapper moving class, and write the moving top, left,
scale (wrapper) and opacity (container) custom properties. -/
def mousemove (clientX clientY : ℚ) (s : DragState) : DragState :=
  if !s.g.locked || s.g.isReturning then s
  else
    let top := clientY - s.g.offsetY
    if |top - s.g.initialY| < 10 then s
    else
      let p := movePercentage s.g.initialY top
      { s with
        g := { s.g with percentage := p }
        view := { s.view with
          wrapperMoving := true
          movingTop := some top
          movingLeft := some (clientX - s.g.offsetX)
          movingScale := some p
          movingOpacity := some p } }

/-- Handler for mouseup on the document: bail out unless locked and not
returning; unlock and mark returning; swap the wrapper moving class for the
moving-back class; write the 500ms return transition and the recorded initial
position as the moving-back target; null the container opacity; schedule the
500ms cleanup; finally, when the last computed percentage is at most 0.7, call
closePopup. -/
def mouseup (s : DragState) : DragState :=
  if !s.g.locked || s.g.isReturning then s
  else
    let s1 : DragState :=
      { s with
        g := { s.g with locked := false, isReturning := true }
        view := { s.view with
          wrapperMoving := false
          wrapperMovingBack := s.view.wrapperMovingBack || s.view.wrapperMoving
          movingBackTransition := some "all .5s"
          movingBackLeft := some s.g.initialX
          movingBackTop := some s.g.initialY
          movingOpacity := none
          movingTransition := some "all .5s"
          pendingReturnDelay := some 500 } }
    if s.g.percentage ≤ 7 / 10 then { s1 with ctrl := closePopup s1.ctrl } else s1

/-- Body of the 500ms setTimeout callback scheduled by the mouseup handler:
remove the wrapper moving-back class and the container moving class, clear
isReturning. -/
def returnTimeout (s : DragState) : DragState :=
  { s with
    g := { s.g with isReturning := false }
    view := { s.view with
      wrapperMovingBack := false
      containerMoving := false
      pendingReturnDelay := none } }

/-!
Construction and DOM role resolution (constructor, the nodes setter and the
GrabListenerOn setter).  DOM nodes are identified by natural numbers; a
document is a query function from selector strings to an optional node
(document.querySelector) and to a node list (document.querySelectorAll).
-/

/-- Value supplied for one selector option: a DOM node, a string, or some
other (truthy) value that is neither, which the setters reject with a logged
error. -/
inductive OptVal
  | node (n : Nat)
  | str (s : String)
  | other
deriving DecidableEq

/-- Resolution of the value provided for one role in the nodes setter: a node
is taken as is; a non-empty string goes through selectNode (querySelector,
logging on failure); an empty string is falsy and skipped; any other value is
rejected with a logged error.  In all failure cases the role stays null. -/
def resolveProvided (dom : String → Option Nat) : Option OptVal → Option Nat
  | some (OptVal.node n) => some n
  | some (OptVal.str s) => if s = "" then none else dom s
  | some OptVal.other => none
  | none => none

/-- Role resolution of the nodes setter including the default-selector
fallback: when the provided value left the role null, querySelector on the
documented default selector is tried, logging on failure. -/
def resolveRole (dom : String → Option Nat) (provided : Option OptVal) (defaultSel : String) :
    Option Nat :=
  match resolveProvided dom provided with
  | some n => some n
  | none => dom defaultSel

/-- Selector options accepted by the constructor (the selectors field of the
options object). -/
structure SelOpts where
  opener : Option OptVal := none
  container : Option OptVal := none
  wrapper : Option OptVal := none
  content : Option OptVal := none
  closeButton : Option OptVal := none

/-- Host (JavaScript) runtime error escaping the constructor. -/
structure JsError where
  msg : String
deriving DecidableEq

/-- Constructor of class Popup, modelling the effects the claims are about.
The accessor assignments run in source order: the nodes setter resolves all
five roles (logging and leaving a role null on failure), then the
backgroundColor setter writes a CSS custom property on the container node —
the first null dereference when the container role is unset — then the
constructor adds the hidden class to the container and addOpenListener calls
addEventListener on the opener node — a null dereference when the opener role
is unset.  On success the controller state is initCtrl with the configured
useEscapeToClose flag (absent means the default true). -/
def construct (dom : String → Option Nat) (opts : SelOpts) (useEsc : Option Bool) :
    Except JsError Ctrl :=
  let container := resolveRole dom opts.container ".popup__container"
  let opener := resolveRole dom opts.opener ".popup__opener"
  match container with
  | none => Except.error ⟨"TypeError: Cannot read properties of null (reading style)"⟩
  | some _ =>
    match opener with
    | none => Except.error ⟨"TypeError: Cannot read properties of null (reading addEventListener)"⟩
    | some _ => Except.ok { initCtrl with useEscapeToClose := useEsc.getD true }

/-- Value accepted by the setGrabListenerOn option: a node, a selector
string, an array of such values, or some other truthy invalid value. -/
inductive GrabOpt
  | node (n : Nat)
  | str (s : String)
  | arr (l : List GrabOpt)
  | invalid

/-- Value stored in the grabListenerOn field: either a bare DOM node (stored
as is by the setter when handed a node) or a node list (from querySelectorAll
or the wrapper default). -/
inductive GrabTarget
  | bare (n : Nat)
  | list (ns : List Nat)
deriving DecidableEq

/-- JavaScript truthiness of a setGrabListenerOn value: only the empty string
is falsy among the modelled values. -/
def grabTruthy : GrabOpt → Bool
  | GrabOpt.str s => s ≠ ""
  | _ => true

mutual

/-- Setter GrabListenerOn, acting on the current grabListenerOn value: a node
is stored bare; a string goes through querySelectorAll (domAll), stored only
when non-empty (else a logged error); an array is walked with forEach, each
element re-entering the full setter; other values log an error.  At the end,
a still-null field falls back to a one-element list holding the wrapper node
when the wrapper role is set (else a logged error leaves it null). -/
def setGrabOn (domAll : String → List Nat) (wrapper : Option Nat) :
    GrabOpt → Option GrabTarget → Option GrabTarget
  | sel, cur =>
    let cur1 :=
      if grabTruthy sel then
        match sel with
        | GrabOpt.node n => some (GrabTarget.bare n)
        | GrabOpt.str s => if (domAll s).isEmpty then cur else some (GrabTarget.list (domAll s))
        | GrabOpt.arr l => setGrabOnList domAll wrapper l cur
        | GrabOpt.invalid => cur
      else cur
    match cur1 with
    | some t => some t
    | none => wrapper.map (fun w => GrabTarget.list [w])

/-- forEach walk over an array passed to the GrabListenerOn setter; each
element runs the full setter on the accumulated value. -/
def setGrabOnList (domAll : String → List Nat) (wrapper : Option Nat) :
    List GrabOpt → Option GrabTarget → Option GrabTarget
  | [], cur => cur
  | e :: rest, cur => setGrabOnList domAll wrapper rest (setGrabOn domAll wrapper e cur)

end

/-- Constructor-level entry of the GrabListenerOn setter: an absent option is
falsy, so only the default fallback runs. -/
def setGrabTop (domAll : String → List Nat) (wrapper : Option Nat) (opt : Option GrabOpt) :
    Option GrabTarget :=
  match opt with
  | none => wrapper.map (fun w => GrabTarget.list [w])
  | some sel => setGrabOn domAll wrapper sel none

/-- Start of method addGrabListener: grabListenerOn.forEach(node => ...).
Calling forEach on a bare element node (which has no forEach method) or on
null raises a host TypeError; on a node list it succeeds and attaches the
mousedown handler to each listed node. -/
def forEachAddListener : Option GrabTarget → Except JsError (List Nat)
  | none => Except.error ⟨"TypeError: Cannot read properties of null (reading forEach)"⟩
  | some (GrabTarget.bare _) => Except.error ⟨"TypeError: node.forEach is not a function"⟩
  | some (GrabTarget.list ns) => Except.ok ns

/-- Reachable controller states: every state obtainable from the given start
state by the transition functions of class Popup — the two public methods,
the bodies of their scheduled timeout callbacks, and the dispatch of click
and keyup events to the attached handlers. -/
inductive Reachable (s0 : Ctrl) : Ctrl → Prop
  | init : Reachable s0 s0
  | openP {s : Ctrl} : Reachable s0 s → Reachable s0 (openPopup s)
  | openT {s : Ctrl} : Reachable s0 s → Reachable s0 (openTimeout s)
  | closeP {s : Ctrl} : Reachable s0 s → Reachable s0 (closePopup s)
  | closeT {s : Ctrl} : Reachable s0 s → Reachable s0 (closeTimeout s)
  | click {s : Ctrl} (t : ClickTarget) :
      Reachable s0 s → Reachable s0 (containerClickDispatch t s)
  | keyup {s : Ctrl} (c : String) : Reachable s0 s → Reachable s0 (keyupDispatch c s)

/-- Document for construction witnesses in which both the default container
and the default opener selectors resolve. -/
def domBoth : String → Option Nat := fun s =>
  if s = ".popup__container" then some 1 else if s = ".popup__opener" then some 2 else none

/-- Document for grab-trigger witnesses: querySelectorAll resolves the
selector .slide img to one node and everything else to an empty list. -/
def domSlides : String → List Nat := fun s => if s = ".slide img" then [7] else []

/-- Drag state at the moment the popup is Opened and no gesture has run yet
(the closure of addGrabListener initialises percentage to 1). -/
def dInit : DragState := {}

/-- Drag trace, first pointer-down: pointer at (15, 15) on a wrapper whose
bounding box sits at (10, 10). -/
def dDown : DragState := mousedown 15 15 10 10 dInit

/-- Drag trace, a long upward move: the prospective top is -30, which is 40px
from the initial position and clamps the percentage at 0.3. -/
def dDragged : DragState := mousemove 15 (-25) dDown

/-- Drag trace, pointer-up: the percentage 0.3 is at most 0.7, so closePopup
runs. -/
def dReleased : DragState := mouseup dDragged

/-- Drag trace, the 500ms return timeout has fired. -/
def dSettled : DragState := returnTimeout dReleased

/-- Drag trace, a second pointer-down starting a new gesture. -/
def dSecondDown : DragState := mousedown 20 20 10 10 dSettled

/-- Locked gesture over the Opened popup whose last computed percentage is
0.3. -/
def dLow : DragState := { g := { locked := true, percentage := 3 / 10 }, ctrl := openedCtrl }

/-- Locked gesture over the Opened popup whose percentage is still the
initial 1. -/
def dHigh : DragState := { g := { locked := true }, ctrl := openedCtrl }

/-- Locked gesture with offset (5, 5) and initial position (10, 10), used to
exercise the mousemove percentage computation. -/
def dMove : DragState :=
  { g := { locked := true, offsetX := 5, offsetY := 5, initialX := 10, initialY := 10 } }

/-!
Helper lemmas shared by the claim theorems.
-/

lemma openPopup_of_animating {s : Ctrl} (h : s.isAnimating = true) : openPopup s = s := by
  simp [openPopup, h]

lemma closePopup_of_animating {s : Ctrl} (h : s.isAnimating = true) : closePopup s = s := by
  simp [closePopup, h]

lemma classListReplace_card_one {a b : StateClass} {cl : Finset StateClass}
    (h : cl.card = 1) : (classListReplace a b cl).card = 1 := by
  obtain ⟨x, rfl⟩ := Finset.card_eq_one.mp h
  by_cases hax : a = x
  · subst hax
    simp [classListReplace]
  · simp [classListReplace, hax]

lemma replace_opened_closing_opened :
    classListReplace StateClass.opened StateClass.closing {StateClass.opened} =
      {StateClass.closing} := by decide

lemma replace_opened_closing_hidden :
    classListReplace StateClass.opened StateClass.closing {StateClass.hidden} =
      {StateClass.hidden} := by decide

lemma closePopup_classes_of_opened {s : Ctrl} (hop : s.classes = {StateClass.opened})
    (ha : s.isAnimating = false) :
    (closePopup s).classes = {StateClass.closing} ∧ (closePopup s).isAnimating = true := by
  simp [closePopup, ha, hop, replace_opened_closing_opened]

lemma keyupHandler_fixed_of_animating {s : Ctrl} (c : String) (h : s.isAnimating = true) :
    keyupHandler c s = s := by
  by_cases hc : c = "Escape" <;> simp [keyupHandler, hc, closePopup_of_animating h]

lemma keyupHandler_hidden {s : Ctrl} (c : String) (h : s.classes = {StateClass.hidden}) :
    (keyupHandler c s).classes = {StateClass.hidden} := by
  by_cases hc : c = "Escape"
  · by_cases ha : s.isAnimating <;>
      simp [keyupHandler, hc, closePopup, ha, h, replace_opened_closing_hidden]
  · simp [keyupHandler, hc, h]

lemma keyup_iterate_hidden (c : String) :
    ∀ (n : Nat) (s : Ctrl), s.classes = {StateClass.hidden} →
      ((keyupHandler c)^[n] s).classes = {StateClass.hidden} := by
  intro n
  induction n with
  | zero => intro s h; simpa using h
  | succ n ih =>
      intro s h
      rw [Function.iterate_succ_apply]
      exact ih _ (keyupHandler_hidden c h)

end Popup

namespace Popup

/-!
Claim theorems.
-/

/-- C7: while isAnimating holds, openPopup and closePopup return immediately,
leaving the whole controller state — animation classes, flags, listener
registrations, scheduled transitions — unchanged, and no request is queued
for later. -/
theorem busy_open_close_requests_dropped (s : Ctrl) (h : s.isAnimating = true) :
    openPopup s = s ∧ closePopup s = s :=
  ⟨openPopup_of_animating h, closePopup_of_animating h⟩

/-- Witness for C7 at a concrete animating state: the state right after the
first openPopup call, whose opening timeout is still pending. -/
theorem busy_open_close_requests_dropped_witness :
    (openPopup initCtrl).isAnimating = true ∧
      openPopup (openPopup initCtrl) = openPopup initCtrl ∧
      closePopup (openPopup initCtrl) = openPopup initCtrl :=
  ⟨by decide, busy_open_close_requests_dropped (openPopup initCtrl) (by decide)⟩

/-- C2, the code-level divergence: addCloseListener never sets
isCloseEventAdded, so the guard in the Opening-to-Opened callback passes on
every cycle and the close listener set (container click handler, and the
document keyup handler) is attached a second time on the second cycle, while
the grab listener set stays attached exactly once because addGrabListener
does set isMoveEventsAdded.  Evaluated on two full open and close cycles
starting from the post-construction state. -/
theorem close_listener_registered_each_cycle :
    (openTimeout (openPopup hiddenAfterCycle)).closeClickListenerCount = 2 ∧
      (openTimeout (openPopup hiddenAfterCycle)).escListenerCount = 2 ∧
      (openTimeout (openPopup hiddenAfterCycle)).grabListenerCount = 1 ∧
      (openTimeout (openPopup hiddenAfterCycle)).isCloseEventAdded = false ∧
      openedCtrl.closeClickListenerCount = 1 := by decide

/-- C1, counterexample: in the Opened state reached by the first open, a click
whose event target is exactly the content node DOES trigger closePopup (the
container enters Closing), and a click on the container with the target not
inside the content node (here the container itself) does NOT trigger a close —
the opposite of the claim on both sides. -/
theorem content_click_close_counterexample :
    (containerClickDispatch ClickTarget.contentNode openedCtrl).classes =
        {StateClass.closing} ∧
      containerClickDispatch ClickTarget.containerNode openedCtrl = openedCtrl := by decide

/-- C1, amended: while Opened and not animating, a click whose event target is
exactly the content node triggers closePopup and the container enters Closing;
a click with any other target — the container itself, a node inside the
content, or anything else — leaves the controller unchanged. -/
theorem content_click_closes_amended (s : Ctrl) (t : ClickTarget)
    (hop : s.classes = {StateClass.opened}) (ha : s.isAnimating = false) :
    (containerClickHandler ClickTarget.contentNode s).classes = {StateClass.closing} ∧
      (t ≠ ClickTarget.contentNode → containerClickHandler t s = s) := by
  constructor
  · simpa [containerClickHandler] using (closePopup_classes_of_opened hop ha).1
  · intro ht
    simp [containerClickHandler, ht]

/-- Witness for C1 amended at the concrete Opened state, with the container
itself as the non-content target. -/
theorem content_click_closes_amended_witness :
    (containerClickHandler ClickTarget.contentNode openedCtrl).classes =
        {StateClass.closing} ∧
      containerClickHandler ClickTarget.containerNode openedCtrl = openedCtrl :=
  ⟨(content_click_closes_amended openedCtrl ClickTarget.containerNode
      (by decide) (by decide)).1,
    (content_click_closes_amended openedCtrl ClickTarget.containerNode
      (by decide) (by decide)).2 (by decide)⟩

/-- C4, counterexample: after one full open and close cycle the popup is back
in Hidden, not animating, and the document keyup listener registered on the
first Opening-to-Opened transition is still attached; an Escape keyup there
does NOT leave the controller state unchanged — closePopup runs its body,
setting isAnimating and scheduling a closing-completion timeout (which will
register one more once-click open listener), even though the container class
stays hidden. -/
theorem escape_in_hidden_counterexample :
    hiddenAfterCycle.classes = {StateClass.hidden} ∧
      hiddenAfterCycle.isAnimating = false ∧
      keyupDispatch "Escape" hiddenAfterCycle ≠ hiddenAfterCycle ∧
      (keyupDispatch "Escape" hiddenAfterCycle).isAnimating = true ∧
      (keyupDispatch "Escape" hiddenAfterCycle).pendingCloseTimeout = true := by decide

/-- C4, amended: an Escape keyup enters Closing only when useEscapeToClose
held at registration time and the state is Opened and not animating.  A keyup
while animating, a keyup with no registered handler (in particular whenever
useEscapeToClose is false, since addCloseListener then skips the keyup
registration), and a keyup with a non-Escape code all leave the state
unchanged.  In the Hidden state, however, the keyup is not a complete no-op:
the Closing class is never entered (the container stays exactly hidden), but
closePopup's body runs (it flips isAnimating and schedules a timeout) rather
than being ignored. -/
theorem escape_close_amended (s : Ctrl) (c : String) (n : Nat) :
    (s.isAnimating = true → keyupDispatch c s = s) ∧
      (s.escListenerCount = 0 → keyupDispatch c s = s) ∧
      (c ≠ "Escape" → keyupDispatch c s = s) ∧
      (s.classes = {StateClass.opened} → s.isAnimating = false →
        s.escListenerCount = n + 1 →
          (keyupDispatch "Escape" s).classes = {StateClass.closing} ∧
            (keyupDispatch "Escape" s).isAnimating = true) ∧
      (s.classes = {StateClass.hidden} →
        (keyupDispatch "Escape" s).classes = {StateClass.hidden}) := by
  refine ⟨?_, ?_, ?_, ?_, ?_⟩
  · intro h
    exact Function.iterate_fixed (keyupHandler_fixed_of_animating c h) _
  · intro h
    simp [keyupDispatch, h]
  · intro hc
    exact Function.iterate_fixed (by simp [keyupHandler, hc]) _
  · intro hop ha hcount
    have hstep : keyupHandler "Escape" s = closePopup s := by simp [keyupHandler]
    have hfix : (keyupHandler "Escape")^[n] (closePopup s) = closePopup s :=
      Function.iterate_fixed
        (keyupHandler_fixed_of_animating "Escape" (closePopup_classes_of_opened hop ha).2) _
    have : keyupDispatch "Escape" s = closePopup s := by
      rw [keyupDispatch, hcount, Function.iterate_succ_apply, hstep, hfix]
    rw [this]
    exact ⟨(closePopup_classes_of_opened hop ha).1, (closePopup_classes_of_opened hop ha).2⟩
  · intro h
    exact keyup_iterate_hidden "Escape" _ s h

/-- Witness for C4 amended at concrete states: the Opened state after the
first open (escape closes it), and the initial state (no handler attached, so
the keyup is a no-op). -/
theorem escape_close_amended_witness :
    (keyupDispatch "Escape" openedCtrl).classes = {StateClass.closing} ∧
      keyupDispatch "Escape" initCtrl = initCtrl ∧
      keyupDispatch "KeyA" openedCtrl = openedCtrl :=
  ⟨((escape_close_amended openedCtrl "Escape" 0).2.2.2.1 (by decide) (by decide)
      (by decide)).1,
    (escape_close_amended initCtrl "Escape" 0).2.1 (by decide),
    (escape_close_amended openedCtrl "KeyA" 0).2.2.1 (by decide)⟩

end Popup

namespace Popup

/-!
Exactly-one-state-class invariant (for C8).
-/

lemma openPopup_card {s : Ctrl} (h : s.classes.card = 1) : (openPopup s).classes.card = 1 := by
  by_cases ha : s.isAnimating <;> simp [openPopup, ha, h, classListReplace_card_one h]

lemma openTimeout_card {s : Ctrl} (h : s.classes.card = 1) :
    (openTimeout s).classes.card = 1 := by
  have h1 : (classListReplace StateClass.opening StateClass.opened s.classes).card = 1 :=
    classListReplace_card_one h
  by_cases h2 : s.isCloseEventAdded <;> by_cases h3 : s.isMoveEventsAdded <;>
    simp [openTimeout, addCloseListenerFn, addGrabListenerFn, h2, h3, h1]

lemma closePopup_card {s : Ctrl} (h : s.classes.card = 1) : (closePopup s).classes.card = 1 := by
  by_cases ha : s.isAnimating <;> simp [closePopup, ha, h, classListReplace_card_one h]

lemma closeTimeout_card {s : Ctrl} (h : s.classes.card = 1) :
    (closeTimeout s).classes.card = 1 := by
  simpa [closeTimeout] using classListReplace_card_one h

lemma iterate_card_one {f : Ctrl → Ctrl}
    (hf : ∀ s : Ctrl, s.classes.card = 1 → (f s).classes.card = 1) :
    ∀ (n : Nat) (s : Ctrl), s.classes.card = 1 → (f^[n] s).classes.card = 1 := by
  intro n
  induction n with
  | zero => intro s h; simpa using h
  | succ n ih =>
      intro s h
      rw [Function.iterate_succ_apply]
      exact ih _ (hf s h)

lemma containerClickHandler_card {t : ClickTarget} {s : Ctrl} (h : s.classes.card = 1) :
    (containerClickHandler t s).classes.card = 1 := by
  by_cases ht : t = ClickTarget.contentNode <;>
    simp [containerClickHandler, ht, h, closePopup_card h]

lemma keyupHandler_card {c : String} {s : Ctrl} (h : s.classes.card = 1) :
    (keyupHandler c s).classes.card = 1 := by
  by_cases hc : c = "Escape" <;> simp [keyupHandler, hc, h, closePopup_card h]

/-- C8: after construction the container carries exactly the hidden state
class, and every state reachable from a state carrying exactly one of the
four animation state classes — by openPopup, closePopup, their timeout
callbacks, and click or keyup dispatch — again carries exactly one.  The
classes are therefore mutually exclusive and one is always present at every
point after construction. -/
theorem state_classes_mutually_exclusive :
    (∀ (dom : String → Option Nat) (opts : SelOpts) (useEsc : Option Bool) (s : Ctrl),
        construct dom opts useEsc = Except.ok s → s.classes = {StateClass.hidden}) ∧
      ∀ s0 s : Ctrl, s0.classes.card = 1 → Reachable s0 s → s.classes.card = 1 := by
  constructor
  · intro dom opts useEsc s h
    unfold construct at h
    rcases hc : resolveRole dom opts.container ".popup__container" with _ | c
    · rw [hc] at h
      dsimp only at h
      exact Except.noConfusion h
    · rcases ho : resolveRole dom opts.opener ".popup__opener" with _ | o
      · rw [hc, ho] at h
        dsimp only at h
        exact Except.noConfusion h
      · rw [hc, ho] at h
        dsimp only at h
        injection h with h2
        subst h2
        rfl
  · intro s0 s h0 hr
    induction hr with
    | init => exact h0
    | openP _ ih => exact openPopup_card ih
    | openT _ ih => exact openTimeout_card ih
    | closeP _ ih => exact closePopup_card ih
    | closeT _ ih => exact closeTimeout_card ih
    | click t _ ih =>
        exact iterate_card_one (fun s h => containerClickHandler_card h) _ _ ih
    | keyup c _ ih =>
        exact iterate_card_one (fun s h => keyupHandler_card h) _ _ ih

/-- Witness for C8 at concrete inputs: a successful construction on a document
resolving the default selectors yields exactly the hidden class, and a
concrete reachable state (the Opened state after one open) carries exactly
one state class. -/
theorem state_classes_mutually_exclusive_witness :
    (construct domBoth {} none = Except.ok initCtrl →
        initCtrl.classes = {StateClass.hidden}) ∧
      openedCtrl.classes.card = 1 :=
  ⟨state_classes_mutually_exclusive.1 domBoth {} none initCtrl,
    state_classes_mutually_exclusive.2 initCtrl openedCtrl (by decide)
      (Reachable.openT (Reachable.openP Reachable.init))⟩

/-- C3, counterexample: on a document where no selector resolves (so the
container role fails to resolve from both the provided and the default
selectors), construction does NOT complete — the backgroundColor setter
dereferences the null container and a TypeError escapes the constructor. -/
theorem construct_throws_counterexample :
    construct (fun _ => none) {} none =
      Except.error ⟨"TypeError: Cannot read properties of null (reading style)"⟩ := rfl

/-- C3, amended: role-resolution failures themselves are only logged and leave
the role unset, and wrong-typed or unresolvable wrapper, content and close
button roles indeed do not make construction fail; but construction completes
without throwing only when the container and the opener roles resolve — with
the container unset the constructor itself dereferences null while writing
the background custom property (and again when adding the hidden class), and
with the opener unset addOpenListener does, so a host TypeError escapes the
public surface. -/
theorem construct_ok_amended (dom : String → Option Nat) (opts : SelOpts)
    (useEsc : Option Bool)
    (hc : (resolveRole dom opts.container ".popup__container").isSome = true)
    (ho : (resolveRole dom opts.opener ".popup__opener").isSome = true) :
    construct dom opts useEsc =
      Except.ok { initCtrl with useEscapeToClose := useEsc.getD true } := by
  obtain ⟨c, hc2⟩ := Option.isSome_iff_exists.mp hc
  obtain ⟨o, ho2⟩ := Option.isSome_iff_exists.mp ho
  unfold construct
  rw [hc2, ho2]

/-- Witness for C3 amended: on a document resolving the default container and
opener selectors, with no options at all, construction succeeds with the
default configuration. -/
theorem construct_ok_amended_witness :
    construct domBoth {} none = Except.ok initCtrl :=
  construct_ok_amended domBoth {} none (by decide) (by decide)

end Popup

namespace Popup

/-!
Drag gesture claims (C5, C6, C9).
-/

lemma movePercentage_eq_clamp (y0 top : ℚ) :
    movePercentage y0 top = max (3 / 10) (min 1 (1 - (y0 - top) / (9 / 2 * y0))) := by
  unfold movePercentage
  dsimp only
  rw [max_def, min_def]
  split_ifs <;> linarith

lemma movePercentage_bounds (y0 top : ℚ) :
    3 / 10 ≤ movePercentage y0 top ∧ movePercentage y0 top ≤ 1 := by
  unfold movePercentage
  dsimp only
  constructor <;> split_ifs <;> linarith

/-- C5: on pointer-up of a locked, not-yet-returning drag while the popup is
Opened and not animating, a last computed percentage of at most 0.7 makes
closePopup run, entering the Closing state; a percentage above 0.7 leaves the
controller untouched while the wrapper is sent back to its recorded initial
position with a 0.5s transition and a 500ms cleanup timeout — no close is
triggered. -/
theorem drag_release_close_threshold (s : DragState)
    (hl : s.g.locked = true) (hr : s.g.isReturning = false)
    (hop : s.ctrl.classes = {StateClass.opened}) (ha : s.ctrl.isAnimating = false) :
    (s.g.percentage ≤ 7 / 10 →
      (mouseup s).ctrl.classes = {StateClass.closing} ∧
        (mouseup s).ctrl.isAnimating = true ∧
        (mouseup s).view.movingBackTransition = some "all .5s" ∧
        (mouseup s).view.pendingReturnDelay = some 500) ∧
      (7 / 10 < s.g.percentage →
        (mouseup s).ctrl = s.ctrl ∧
          (mouseup s).view.movingBackLeft = some s.g.initialX ∧
          (mouseup s).view.movingBackTop = some s.g.initialY ∧
          (mouseup s).view.movingBackTransition = some "all .5s" ∧
          (mouseup s).view.pendingReturnDelay = some 500) := by
  constructor
  · intro hp
    have hcl := closePopup_classes_of_opened hop ha
    simp [mouseup, hl, hr, hp, hcl.1, hcl.2]
  · intro hp
    have hp2 : ¬ s.g.percentage ≤ 7 / 10 := not_le.mpr hp
    simp [mouseup, hl, hr, hp2]

/-- Witness for C5: a locked gesture over the Opened popup whose percentage
was last computed as 0.3 closes on release, and one at the initial 1 does
not. -/
theorem drag_release_close_threshold_witness :
    ((mouseup dLow).ctrl.classes = {StateClass.closing} ∧
        (mouseup dLow).ctrl.isAnimating = true ∧
        (mouseup dLow).view.movingBackTransition = some "all .5s" ∧
        (mouseup dLow).view.pendingReturnDelay = some 500) ∧
      (mouseup dHigh).ctrl = dHigh.ctrl :=
  ⟨(drag_release_close_threshold dLow rfl rfl (by decide) (by decide)).1 (by norm_num [dLow]),
    ((drag_release_close_threshold dHigh rfl rfl (by decide) (by decide)).2
      (by norm_num [dHigh])).1⟩

/-- C6: a pointer-move processed while locked, not returning, and outside the
10px dead-zone sets the percentage to 1 minus the vertical displacement over
4.5 times the initial vertical position, clamped into the interval from 0.3
to 1, and writes exactly that value to both the wrapper scale and the
container opacity custom properties; the written value is never below 0.3 nor
above 1. -/
theorem drag_move_percentage_clamped (s : DragState) (cx cy : ℚ)
    (hl : s.g.locked = true) (hr : s.g.isReturning = false)
    (hdz : 10 ≤ |cy - s.g.offsetY - s.g.initialY|) :
    (mousemove cx cy s).g.percentage =
      max (3 / 10)
        (min 1 (1 - (s.g.initialY - (cy - s.g.offsetY)) / (9 / 2 * s.g.initialY))) ∧
      (mousemove cx cy s).view.movingScale = some ((mousemove cx cy s).g.percentage) ∧
      (mousemove cx cy s).view.movingOpacity = some ((mousemove cx cy s).g.percentage) ∧
      3 / 10 ≤ (mousemove cx cy s).g.percentage ∧
      (mousemove cx cy s).g.percentage ≤ 1 := by
  have hdz2 : ¬ |cy - s.g.offsetY - s.g.initialY| < 10 := not_lt.mpr hdz
  simp only [mousemove, hl, hr, Bool.not_true, Bool.false_or, if_neg hdz2]
  refine ⟨movePercentage_eq_clamp _ _, rfl, rfl, ?_, ?_⟩
  · exact (movePercentage_bounds _ _).1
  · exact (movePercentage_bounds _ _).2

/-- Witness for C6 at concrete numbers: initial position 10, offset 5, pointer
moved to -25, top -30, displacement 40, raw percentage 1 - 40/45, clamped to
0.3. -/
theorem drag_move_percentage_clamped_witness :
    (mousemove 15 (-25) dMove).g.percentage =
      max (3 / 10)
        (min 1 (1 - (dMove.g.initialY - (-25 - dMove.g.offsetY)) / (9 / 2 * dMove.g.initialY))) ∧
      3 / 10 ≤ (mousemove 15 (-25) dMove).g.percentage :=
  ⟨(drag_move_percentage_clamped dMove 15 (-25) rfl rfl (by norm_num [dMove])).1,
    (drag_move_percentage_clamped dMove 15 (-25) rfl rfl (by norm_num [dMove])).2.2.2.1⟩

lemma mouseup_not_locked {t : DragState} (h : t.g.locked = false) : mouseup t = t := by
  simp [mouseup, h]

lemma returnTimeout_g_locked (t : DragState) : (returnTimeout t).g.locked = t.g.locked := by
  simp [returnTimeout]

lemma returnTimeout_g_percentage (t : DragState) :
    (returnTimeout t).g.percentage = t.g.percentage := by
  simp [returnTimeout]

lemma dDown_eq :
    dDown =
      { g := { locked := true, offsetX := 5, offsetY := 5, initialX := 10, initialY := 10 },
        view := { containerMoving := true },
        ctrl := openedCtrl } := by
  norm_num [dDown, dInit, mousedown]

lemma dDragged_eq :
    dDragged =
      { g :=
          { locked := true, offsetX := 5, offsetY := 5, initialX := 10, initialY := 10,
            percentage := 3 / 10 },
        view :=
          { containerMoving := true, wrapperMoving := true, movingTop := some (-30),
            movingLeft := some 10, movingScale := some (3 / 10), movingOpacity := some (3 / 10) },
        ctrl := openedCtrl } := by
  rw [dDragged, dDown_eq]
  norm_num [mousemove, movePercentage]

lemma dReleased_eq :
    dReleased =
      { g :=
          { locked := false, isReturning := true, offsetX := 5, offsetY := 5, initialX := 10,
            initialY := 10, percentage := 3 / 10 },
        view :=
          { containerMoving := true, wrapperMovingBack := true, movingTop := some (-30),
            movingLeft := some 10, movingScale := some (3 / 10),
            movingTransition := some "all .5s", movingBackTransition := some "all .5s",
            movingBackLeft := some 10, movingBackTop := some 10, pendingReturnDelay := some 500 },
        ctrl := closePopup openedCtrl } := by
  rw [dReleased, dDragged_eq]
  norm_num [mouseup]

lemma dSecondDown_eq :
    dSecondDown =
      { g :=
          { locked := true, isReturning := false, offsetX := 10, offsetY := 10, initialX := 10,
            initialY := 10, percentage := 3 / 10 },
        view :=
          { containerMoving := true, movingTop := some (-30), movingLeft := some 10,
            movingScale := some (3 / 10), movingTransition := none,
            movingBackTransition := some "all .5s", movingBackLeft := some 10,
            movingBackTop := some 10 },
        ctrl := closePopup openedCtrl } := by
  rw [dSecondDown, dSettled, dReleased_eq]
  norm_num [returnTimeout, mousedown]

/-- C9, counterexample: a drag that clamped its percentage at 0.3 is released
(closing the popup) and the 500ms return timeout fires; the recorded
percentage is NOT cleared by the pointer-up handler, and the next
pointer-down starts a gesture that still observes the previous gesture's 0.3
(rather than a fresh value), so an immediate release of that new gesture
would again pass the close threshold. -/
theorem gesture_percentage_not_cleared_counterexample :
    dReleased.g.percentage = 3 / 10 ∧
      dSecondDown.g.locked = true ∧
      dSecondDown.g.percentage = 3 / 10 ∧
      dSecondDown.g.percentage ≠ 1 := by
  rw [dReleased_eq, dSecondDown_eq]
  norm_num

/-- C9, amended: the gesture state is created on pointer-down (offset and
initial position are re-captured and the gesture locks) and mutated on
pointer-move, but pointer-up only consumes it partially: it unlocks the
gesture and starts the rubber-band return, leaving the computed percentage
(and the recorded offsets) in place, so a subsequent pointer-down starts a
gesture that still observes the previous gesture's percentage until a move
outside the dead-zone recomputes it. -/
theorem gesture_lifecycle_amended (s t : DragState) (cx cy rx ry : ℚ)
    (hl : s.g.locked = true) (hr : s.g.isReturning = false)
    (htl : t.g.locked = false) (htr : t.g.isReturning = false) :
    (mouseup s).g.locked = false ∧
      (mouseup s).g.isReturning = true ∧
      (mouseup s).g.percentage = s.g.percentage ∧
      (mouseup (returnTimeout (mouseup s))).g.percentage = s.g.percentage ∧
      (mousedown cx cy rx ry t).g.percentage = t.g.percentage ∧
      (mousedown cx cy rx ry t).g.locked = true := by
  have hup : (mouseup s).g.locked = false ∧ (mouseup s).g.isReturning = true ∧
      (mouseup s).g.percentage = s.g.percentage := by
    by_cases hp : s.g.percentage ≤ 7 / 10 <;> simp [mouseup, hl, hr, hp]
  have h2 : (returnTimeout (mouseup s)).g.locked = false := by
    rw [returnTimeout_g_locked]
    exact hup.1
  refine ⟨hup.1, hup.2.1, hup.2.2, ?_, ?_, ?_⟩
  · rw [mouseup_not_locked h2, returnTimeout_g_percentage]
    exact hup.2.2
  · simp [mousedown, htl, htr]
  · simp [mousedown, htl, htr]

/-- Witness for C9 amended at the concrete dragged state: releasing it keeps
its 0.3 percentage through the return timeout. -/
theorem gesture_lifecycle_amended_witness :
    (mouseup dDragged).g.locked = false ∧
      (mouseup dDragged).g.percentage = dDragged.g.percentage ∧
      (mousedown 15 15 10 10 dInit).g.locked = true :=
  ⟨(gesture_lifecycle_amended dDragged dInit 15 15 10 10 (by rw [dDragged_eq])
      (by rw [dDragged_eq]) rfl rfl).1,
    (gesture_lifecycle_amended dDragged dInit 15 15 10 10 (by rw [dDragged_eq])
      (by rw [dDragged_eq]) rfl rfl).2.2.1,
    (gesture_lifecycle_amended dDragged dInit 15 15 10 10 (by rw [dDragged_eq])
      (by rw [dDragged_eq]) rfl rfl).2.2.2.2.2⟩

/-- C10: handed a single DOM node, the GrabListenerOn setter stores the bare
node itself, not a one-element list, and the forEach call at the start of
addGrabListener — which runs on the first Opening-to-Opened transition —
raises a host TypeError on that non-iterable value; by contrast a non-empty
selector string stores the querySelectorAll node list and forEach succeeds on
it, an absent option falls back to the one-element wrapper list and also
succeeds, and no setGrabListenerOn value that is a single node can ever make
forEach succeed. -/
theorem grab_single_node_option_breaks (domAll : String → List Nat) (wrapper : Option Nat)
    (n w : Nat) (sel : String) (hs : sel ≠ "") (hm : domAll sel ≠ []) :
    setGrabTop domAll wrapper (some (GrabOpt.node n)) = some (GrabTarget.bare n) ∧
      forEachAddListener (setGrabTop domAll wrapper (some (GrabOpt.node n))) =
        Except.error ⟨"TypeError: node.forEach is not a function"⟩ ∧
      forEachAddListener (setGrabTop domAll wrapper (some (GrabOpt.str sel))) =
        Except.ok (domAll sel) ∧
      forEachAddListener (setGrabTop domAll (some w) none) = Except.ok [w] ∧
      ∀ (opt : Option GrabOpt) (res : List Nat),
        forEachAddListener (setGrabTop domAll wrapper opt) = Except.ok res →
          ∀ m : Nat, opt ≠ some (GrabOpt.node m) := by
  have hbare : setGrabTop domAll wrapper (some (GrabOpt.node n)) =
      some (GrabTarget.bare n) := by
    simp [setGrabTop, setGrabOn, grabTruthy]
  have hempty : (domAll sel).isEmpty = false := by
    cases h : domAll sel with
    | nil => exact absurd h hm
    | cons a l => simp [List.isEmpty]
  refine ⟨hbare, ?_, ?_, ?_, ?_⟩
  · rw [hbare]
    rfl
  · simp [setGrabTop, setGrabOn, grabTruthy, hs, hempty, forEachAddListener]
  · simp [setGrabTop, forEachAddListener]
  · intro opt res h m hopt
    subst hopt
    have : setGrabTop domAll wrapper (some (GrabOpt.node m)) = some (GrabTarget.bare m) := by
      simp [setGrabTop, setGrabOn, grabTruthy]
    rw [this] at h
    exact Except.noConfusion h

/-- Witness for C10 at concrete inputs: node 3, the selector .slide img
resolving to the one-element list with node 7, wrapper node 9. -/
theorem grab_single_node_option_breaks_witness :
    forEachAddListener (setGrabTop domSlides (some 9) (some (GrabOpt.node 3))) =
        Except.error ⟨"TypeError: node.forEach is not a function"⟩ ∧
      forEachAddListener (setGrabTop domSlides (some 9) (some (GrabOpt.str ".slide img"))) =
        Except.ok (domSlides ".slide img") ∧
      forEachAddListener (setGrabTop domSlides (some 9) none) = Except.ok [9] :=
  ⟨(grab_single_node_option_breaks domSlides (some 9) 3 9 ".slide img" (by decide)
      (by decide)).2.1,
    (grab_single_node_option_breaks domSlides (some 9) 3 9 ".slide img" (by decide)
      (by decide)).2.2.1,
    (grab_single_node_option_breaks domSlides (some 9) 3 9 ".slide img" (by decide)
      (by decide)).2.2.2.1⟩

end Popup
